import Mathlib

/-!
Verification of the two algorithmic cores of the slab-advisor sync scripts:
the PSA grading-economics calculator (scripts/sync_pokemon_price_tracker.py)
and the card/product variant identity resolver (scripts/sync_card_variants_v2.py).

Modelling conventions: Python floats are modelled as exact rationals,
absent values (None) as Option, and Python truthiness of a numeric value
as the value being nonzero.  Python round(x, 2) is modelled as exact
round-half-to-even at two decimals.
-/

namespace SlabAdvisor

/-! ## Grading fee constants (sync_pokemon_price_tracker.py, lines 52-81) -/

def COST_SHIPPING : ℚ := 9.99

def COST_BULK : ℚ := 19.99
def COST_VAL_MAX : ℚ := 59.99
def COST_REGULAR : ℚ := 74.99
def COST_EXPRESS : ℚ := 149.00
def COST_SUPER : ℚ := 299.00
def COST_WALK : ℚ := 599.00
def COST_PREM_1 : ℚ := 999.00
def COST_PREM_2 : ℚ := 1999.00
def COST_PREM_3 : ℚ := 2999.00
def COST_PREM_5 : ℚ := 4999.00
def COST_PREM_10_BASE : ℚ := 9999.00
def COST_PREM_10_ADD : ℚ := 399.00

def LIMIT_BULK : ℚ := 499.00
def LIMIT_VAL_MAX : ℚ := 1000.00
def LIMIT_REGULAR : ℚ := 1500.00
def LIMIT_EXPRESS : ℚ := 2500.00
def LIMIT_SUPER : ℚ := 5000.00
def LIMIT_WALK : ℚ := 10000.00
def LIMIT_PREM_1 : ℚ := 25000.00
def LIMIT_PREM_2 : ℚ := 50000.00
def LIMIT_PREM_3 : ℚ := 100000.00
def LIMIT_PREM_5 : ℚ := 250000.00
def LIMIT_PREM_10_BASE : ℚ := 350000.00

/-- Embedding of get_grading_fee (sync_pokemon_price_tracker.py, lines 84-125).
The Python parameter may be None; the guard `value is None or value <= 0`
is the none case together with the nonpositive case here. -/
def get_grading_fee : Option ℚ → ℚ
  | none => COST_BULK
  | some value =>
    if value ≤ 0 then COST_BULK
    else if value ≤ LIMIT_BULK then COST_BULK
    else if value ≤ LIMIT_VAL_MAX then COST_VAL_MAX
    else if value ≤ LIMIT_REGULAR then COST_REGULAR
    else if value ≤ LIMIT_EXPRESS then COST_EXPRESS
    else if value ≤ LIMIT_SUPER then COST_SUPER
    else if value ≤ LIMIT_WALK then COST_WALK
    else if value ≤ LIMIT_PREM_1 then COST_PREM_1
    else if value ≤ LIMIT_PREM_2 then COST_PREM_2
    else if value ≤ LIMIT_PREM_3 then COST_PREM_3
    else if value ≤ LIMIT_PREM_5 then COST_PREM_5
    else if value ≤ LIMIT_PREM_10_BASE then COST_PREM_10_BASE
    else COST_PREM_10_BASE +
      COST_PREM_10_ADD * ((⌈(value - LIMIT_PREM_10_BASE) / 10000⌉ : ℤ) : ℚ)

/-! ## Rounding and option helpers for the calculator -/

/-- Round a rational to the nearest integer, ties to even
(the rounding used by Python round). -/
def roundHalfEven (x : ℚ) : ℤ :=
  let n := ⌊x⌋
  let frac := x - (n : ℚ)
  if frac < 1/2 then n
  else if 1/2 < frac then n + 1
  else if n % 2 = 0 then n else n + 1

/-- Model of Python round(x, 2). -/
def round2 (x : ℚ) : ℚ := ((roundHalfEven (x * 100) : ℤ) : ℚ) / 100

/-- Python truthiness of an optional number: None and 0 are falsy. -/
def truthy : Option ℚ → Bool
  | none => false
  | some q => decide (q ≠ 0)

/-- Helper for conditions of the form `o is not None and o >= c`. -/
def optGeBool (o : Option ℚ) (c : ℚ) : Bool :=
  match o with
  | some q => decide (c ≤ q)
  | none => false

/-- Helper for conditions of the form `o is not None and o > c`. -/
def optGtBool (o : Option ℚ) (c : ℚ) : Bool :=
  match o with
  | some q => decide (c < q)
  | none => false

/-- Model of the Python idiom `round(x, 2) if x else None` applied to an
optional value (sync_pokemon_price_tracker.py, lines 421-424). -/
def roundIfTruthy : Option ℚ → Option ℚ
  | none => none
  | some x => if x = 0 then none else some (round2 x)

/-! ## The grading assessment (sync_pokemon_price_tracker.py, lines 310-430) -/

inductive SafetyTier
  | SAFE_BET
  | GAMBLE
  | DO_NOT_GRADE
deriving DecidableEq, Repr

/-- The result dictionary of calculate_grading_potential: fields in the order
grading_cost_basis_entry, grading_fee_entry, grading_fee_psa9,
grading_fee_psa10, profit_at_psa9, profit_at_psa10, roi_psa10,
upcharge_potential, grading_safety_tier. -/
structure GradingResult where
  grading_cost_basis_entry : Option ℚ
  grading_fee_entry : Option ℚ
  grading_fee_psa9 : Option ℚ
  grading_fee_psa10 : Option ℚ
  profit_at_psa9 : Option ℚ
  profit_at_psa10 : Option ℚ
  roi_psa10 : Option ℚ
  upcharge_potential : Bool
  grading_safety_tier : Option SafetyTier
deriving DecidableEq, Repr

/-- The default result for cards without sufficient data
(sync_pokemon_price_tracker.py, lines 329-339). -/
def default_result : GradingResult :=
  ⟨none, none, none, none, none, none, none, false, none⟩

/-- One graded-price scenario (steps B and C of calculate_grading_potential,
lines 367-384): given the entry fee and raw price, if the graded price is
present and positive return the pair of the scenario fee
max(entry fee, fee at graded value) and the rounded profit. -/
def grade_scenario (fee_entry raw : ℚ) : Option ℚ → Option (ℚ × ℚ)
  | some p =>
    if 0 < p then
      let fee := max fee_entry (get_grading_fee (some p))
      let total := fee + COST_SHIPPING + raw
      some (fee, round2 (p - total))
    else none
  | none => none

/-- The ROI computed in the PSA 10 scenario (lines 385-387), guarded by a
positive total cost. -/
def roi_scenario (raw : ℚ) : Option (ℚ × ℚ) → Option ℚ
  | some (fee, profit) =>
    let total := fee + COST_SHIPPING + raw
    if 0 < total then some (round2 (profit / total * 100)) else none
  | none => none

/-- Embedding of calculate_grading_potential
(sync_pokemon_price_tracker.py, lines 310-430).  The inputs are the raw
price and the two graded prices already extracted from the API payloads
(the smartMarketPrice.price extraction of lines 345-357 is JSON plumbing
outside the numeric core).  Python truthiness of the guards
`if not price_raw or price_raw <= 0` and
`if not price_psa9 and not price_psa10` is modelled exactly. -/
def calculate_grading_potential
    (price_raw price_psa9 price_psa10 : Option ℚ) : GradingResult :=
  match price_raw with
  | none => default_result
  | some raw =>
    if raw ≤ 0 then default_result
    else if truthy price_psa9 = false ∧ truthy price_psa10 = false then
      default_result
    else
      let fee_entry := get_grading_fee (some raw)
      let cost_basis := fee_entry + COST_SHIPPING
      let psa9 := grade_scenario fee_entry raw price_psa9
      let psa10 := grade_scenario fee_entry raw price_psa10
      let roi10 := roi_scenario raw psa10
      let upcharge :=
        (match psa9 with
          | some (f9, _) => decide (f9 ≠ 0) && decide (fee_entry < f9)
          | none => false)
        || (match psa10 with
          | some (f10, _) => decide (f10 ≠ 0) && decide (fee_entry < f10)
          | none => false)
      let tier : Option SafetyTier :=
        match psa9 with
        | some (_, profit9) =>
          some (if decide (0 ≤ profit9) && optGeBool (psa10.map Prod.snd) 20
              then SafetyTier.SAFE_BET
            else if optGtBool roi10 125 && optGtBool (psa10.map Prod.snd) 0
              then SafetyTier.GAMBLE
            else SafetyTier.DO_NOT_GRADE)
        | none =>
          match psa10 with
          | some (_, profit10) =>
            some (if optGtBool roi10 125 && decide (0 < profit10)
                then SafetyTier.GAMBLE
              else SafetyTier.DO_NOT_GRADE)
          | none => none
      ⟨roundIfTruthy (some cost_basis), roundIfTruthy (some fee_entry),
        roundIfTruthy (psa9.map Prod.fst), roundIfTruthy (psa10.map Prod.fst),
        psa9.map Prod.snd, psa10.map Prod.snd, roi10, upcharge, tier⟩

/-! ## Facts about the fee ladder -/

/-- Exhaustive case analysis of the fee ladder: every rational input falls
into exactly one branch of the if chain of get_grading_fee. -/
theorem fee_spec (q : ℚ) :
    (q ≤ 0 ∧ get_grading_fee (some q) = COST_BULK)
    ∨ (¬ q ≤ 0 ∧ q ≤ LIMIT_BULK ∧ get_grading_fee (some q) = COST_BULK)
    ∨ (¬ q ≤ LIMIT_BULK ∧ q ≤ LIMIT_VAL_MAX ∧ get_grading_fee (some q) = COST_VAL_MAX)
    ∨ (¬ q ≤ LIMIT_VAL_MAX ∧ q ≤ LIMIT_REGULAR ∧ get_grading_fee (some q) = COST_REGULAR)
    ∨ (¬ q ≤ LIMIT_REGULAR ∧ q ≤ LIMIT_EXPRESS ∧ get_grading_fee (some q) = COST_EXPRESS)
    ∨ (¬ q ≤ LIMIT_EXPRESS ∧ q ≤ LIMIT_SUPER ∧ get_grading_fee (some q) = COST_SUPER)
    ∨ (¬ q ≤ LIMIT_SUPER ∧ q ≤ LIMIT_WALK ∧ get_grading_fee (some q) = COST_WALK)
    ∨ (¬ q ≤ LIMIT_WALK ∧ q ≤ LIMIT_PREM_1 ∧ get_grading_fee (some q) = COST_PREM_1)
    ∨ (¬ q ≤ LIMIT_PREM_1 ∧ q ≤ LIMIT_PREM_2 ∧ get_grading_fee (some q) = COST_PREM_2)
    ∨ (¬ q ≤ LIMIT_PREM_2 ∧ q ≤ LIMIT_PREM_3 ∧ get_grading_fee (some q) = COST_PREM_3)
    ∨ (¬ q ≤ LIMIT_PREM_3 ∧ q ≤ LIMIT_PREM_5 ∧ get_grading_fee (some q) = COST_PREM_5)
    ∨ (¬ q ≤ LIMIT_PREM_5 ∧ q ≤ LIMIT_PREM_10_BASE ∧ get_grading_fee (some q) = COST_PREM_10_BASE)
    ∨ (¬ q ≤ LIMIT_PREM_10_BASE ∧ get_grading_fee (some q)
        = COST_PREM_10_BASE + COST_PREM_10_ADD * ((⌈(q - LIMIT_PREM_10_BASE) / 10000⌉ : ℤ) : ℚ)) := by
  by_cases h0 : q ≤ 0
  · exact Or.inl ⟨h0, by simp only [get_grading_fee, if_pos h0]⟩
  refine Or.inr ?_
  by_cases h1 : q ≤ LIMIT_BULK
  · exact Or.inl ⟨h0, h1, by simp only [get_grading_fee, if_neg h0, if_pos h1]⟩
  refine Or.inr ?_
  by_cases h2 : q ≤ LIMIT_VAL_MAX
  · exact Or.inl ⟨h1, h2, by
      simp only [get_grading_fee, if_neg h0, if_neg h1, if_pos h2]⟩
  refine Or.inr ?_
  by_cases h3 : q ≤ LIMIT_REGULAR
  · exact Or.inl ⟨h2, h3, by
      simp only [get_grading_fee, if_neg h0, if_neg h1, if_neg h2, if_pos h3]⟩
  refine Or.inr ?_
  by_cases h4 : q ≤ LIMIT_EXPRESS
  · exact Or.inl ⟨h3, h4, by
      simp only [get_grading_fee, if_neg h0, if_neg h1, if_neg h2, if_neg h3,
        if_pos h4]⟩
  refine Or.inr ?_
  by_cases h5 : q ≤ LIMIT_SUPER
  · exact Or.inl ⟨h4, h5, by
      simp only [get_grading_fee, if_neg h0, if_neg h1, if_neg h2, if_neg h3,
        if_neg h4, if_pos h5]⟩
  refine Or.inr ?_
  by_cases h6 : q ≤ LIMIT_WALK
  · exact Or.inl ⟨h5, h6, by
      simp only [get_grading_fee, if_neg h0, if_neg h1, if_neg h2, if_neg h3,
        if_neg h4, if_neg h5, if_pos h6]⟩
  refine Or.inr ?_
  by_cases h7 : q ≤ LIMIT_PREM_1
  · exact Or.inl ⟨h6, h7, by
      simp only [get_grading_fee, if_neg h0, if_neg h1, if_neg h2, if_neg h3,
        if_neg h4, if_neg h5, if_neg h6, if_pos h7]⟩
  refine Or.inr ?_
  by_cases h8 : q ≤ LIMIT_PREM_2
  · exact Or.inl ⟨h7, h8, by
      simp only [get_grading_fee, if_neg h0, if_neg h1, if_neg h2, if_neg h3,
        if_neg h4, if_neg h5, if_neg h6, if_neg h7, if_pos h8]⟩
  refine Or.inr ?_
  by_cases h9 : q ≤ LIMIT_PREM_3
  · exact Or.inl ⟨h8, h9, by
      simp only [get_grading_fee, if_neg h0, if_neg h1, if_neg h2, if_neg h3,
        if_neg h4, if_neg h5, if_neg h6, if_neg h7, if_neg h8, if_pos h9]⟩
  refine Or.inr ?_
  by_cases h10 : q ≤ LIMIT_PREM_5
  · exact Or.inl ⟨h9, h10, by
      simp only [get_grading_fee, if_neg h0, if_neg h1, if_neg h2, if_neg h3,
        if_neg h4, if_neg h5, if_neg h6, if_neg h7, if_neg h8, if_neg h9,
        if_pos h10]⟩
  refine Or.inr ?_
  by_cases h11 : q ≤ LIMIT_PREM_10_BASE
  · exact Or.inl ⟨h10, h11, by
      simp only [get_grading_fee, if_neg h0, if_neg h1, if_neg h2, if_neg h3,
        if_neg h4, if_neg h5, if_neg h6, if_neg h7, if_neg h8, if_neg h9,
        if_neg h10, if_pos h11]⟩
  refine Or.inr ⟨h11, by
    simp only [get_grading_fee, if_neg h0, if_neg h1, if_neg h2, if_neg h3,
      if_neg h4, if_neg h5, if_neg h6, if_neg h7, if_neg h8, if_neg h9,
      if_neg h10, if_neg h11]⟩

/-- The open-ended premium tier fee is at least 10398. -/
theorem prem_lb (q : ℚ) (hq : ¬ q ≤ LIMIT_PREM_10_BASE) :
    (10398:ℚ) ≤ COST_PREM_10_BASE +
      COST_PREM_10_ADD * ((⌈(q - LIMIT_PREM_10_BASE) / 10000⌉ : ℤ) : ℚ) := by
  rw [not_le] at hq
  have hpos : (0:ℚ) < (q - LIMIT_PREM_10_BASE) / 10000 := by
    have : (0:ℚ) < q - LIMIT_PREM_10_BASE := by linarith
    positivity
  have hc : (1:ℤ) ≤ ⌈(q - LIMIT_PREM_10_BASE) / 10000⌉ :=
    Int.one_le_ceil_iff.mpr hpos
  have hc' : (1:ℚ) ≤ ((⌈(q - LIMIT_PREM_10_BASE) / 10000⌉ : ℤ) : ℚ) := by
    exact_mod_cast hc
  norm_num [COST_PREM_10_BASE, COST_PREM_10_ADD]
  linarith

/-- Every fee the ladder can return is at least the lowest tier fee. -/
theorem cost_bulk_le_fee (v : Option ℚ) : COST_BULK ≤ get_grading_fee v := by
  match v with
  | none => exact le_refl _
  | some q =>
    rcases fee_spec q with ⟨_, e⟩ | ⟨_, _, e⟩ | ⟨_, _, e⟩ | ⟨_, _, e⟩ |
      ⟨_, _, e⟩ | ⟨_, _, e⟩ | ⟨_, _, e⟩ | ⟨_, _, e⟩ | ⟨_, _, e⟩ | ⟨_, _, e⟩ |
      ⟨_, _, e⟩ | ⟨_, _, e⟩ | ⟨hq, e⟩ <;> rw [e]
    · norm_num [COST_BULK, COST_VAL_MAX]
    · norm_num [COST_BULK, COST_REGULAR]
    · norm_num [COST_BULK, COST_EXPRESS]
    · norm_num [COST_BULK, COST_SUPER]
    · norm_num [COST_BULK, COST_WALK]
    · norm_num [COST_BULK, COST_PREM_1]
    · norm_num [COST_BULK, COST_PREM_2]
    · norm_num [COST_BULK, COST_PREM_3]
    · norm_num [COST_BULK, COST_PREM_5]
    · norm_num [COST_BULK, COST_PREM_10_BASE]
    · have h := prem_lb q hq
      norm_num [COST_BULK]
      linarith

/-- The grading fee is always positive. -/
theorem fee_pos (v : Option ℚ) : 0 < get_grading_fee v := by
  have h := cost_bulk_le_fee v
  have hb : (0:ℚ) < COST_BULK := by norm_num [COST_BULK]
  linarith

/-- roundHalfEven is the identity on integers. -/
theorem roundHalfEven_intCast (k : ℤ) : roundHalfEven (k : ℚ) = k := by
  simp only [roundHalfEven, Int.floor_intCast, sub_self]
  norm_num

/-- round2 is the identity on rationals with at most two decimals. -/
theorem round2_eq_self_of_cents (x : ℚ) (k : ℤ) (h : x * 100 = (k : ℚ)) :
    round2 x = x := by
  simp only [round2, h, roundHalfEven_intCast]
  rw [← h]
  field_simp

/-- Every value of the fee ladder has at most two decimals, so the final
round(fee, 2) of the Python result dictionary does not change it. -/
theorem round2_fee (v : Option ℚ) :
    round2 (get_grading_fee v) = get_grading_fee v := by
  match v with
  | none =>
    exact round2_eq_self_of_cents _ 1999 (by norm_num [get_grading_fee, COST_BULK])
  | some q =>
    rcases fee_spec q with ⟨_, e⟩ | ⟨_, _, e⟩ | ⟨_, _, e⟩ | ⟨_, _, e⟩ |
      ⟨_, _, e⟩ | ⟨_, _, e⟩ | ⟨_, _, e⟩ | ⟨_, _, e⟩ | ⟨_, _, e⟩ | ⟨_, _, e⟩ |
      ⟨_, _, e⟩ | ⟨_, _, e⟩ | ⟨hq, e⟩ <;> rw [e]
    · exact round2_eq_self_of_cents _ 1999 (by norm_num [COST_BULK])
    · exact round2_eq_self_of_cents _ 1999 (by norm_num [COST_BULK])
    · exact round2_eq_self_of_cents _ 5999 (by norm_num [COST_VAL_MAX])
    · exact round2_eq_self_of_cents _ 7499 (by norm_num [COST_REGULAR])
    · exact round2_eq_self_of_cents _ 14900 (by norm_num [COST_EXPRESS])
    · exact round2_eq_self_of_cents _ 29900 (by norm_num [COST_SUPER])
    · exact round2_eq_self_of_cents _ 59900 (by norm_num [COST_WALK])
    · exact round2_eq_self_of_cents _ 99900 (by norm_num [COST_PREM_1])
    · exact round2_eq_self_of_cents _ 199900 (by norm_num [COST_PREM_2])
    · exact round2_eq_self_of_cents _ 299900 (by norm_num [COST_PREM_3])
    · exact round2_eq_self_of_cents _ 499900 (by norm_num [COST_PREM_5])
    · exact round2_eq_self_of_cents _ 999900 (by norm_num [COST_PREM_10_BASE])
    · apply round2_eq_self_of_cents _
        (999900 + 39900 * ⌈(q - LIMIT_PREM_10_BASE) / 10000⌉)
      push_cast
      norm_num [COST_PREM_10_BASE, COST_PREM_10_ADD]
      ring

/-- C1: gradingFee (get_grading_fee) is a total function on every
rational-or-absent input (totality and single-valuedness are by
construction of the Lean function, mirroring the exception-free Python
ladder): nonpositive or absent declared values map to the lowest tier fee
19.99; at the ladder boundary gradingFee(499) = 19.99 and
gradingFee(500) = 59.99; above 350000 the fee is
9999.00 + 399.00 * ceil((value - 350000) / 10000), so
gradingFee(360000) = 10398.00. -/
theorem claim_C1_grading_fee :
    (∀ v : Option ℚ, (v = none ∨ ∃ q, v = some q ∧ q ≤ 0) →
      get_grading_fee v = 19.99)
    ∧ get_grading_fee (some 499) = 19.99
    ∧ get_grading_fee (some 500) = 59.99
    ∧ (∀ q : ℚ, 350000 < q →
        get_grading_fee (some q) = 9999 + 399 * ((⌈(q - 350000) / 10000⌉ : ℤ) : ℚ))
    ∧ get_grading_fee (some 360000) = 10398 := by
  have hprem : ∀ q : ℚ, 350000 < q →
      get_grading_fee (some q) = 9999 + 399 * ((⌈(q - 350000) / 10000⌉ : ℤ) : ℚ) := by
    intro q hq
    rcases fee_spec q with ⟨h, e⟩ | ⟨_, h, e⟩ | ⟨_, h, e⟩ | ⟨_, h, e⟩ |
      ⟨_, h, e⟩ | ⟨_, h, e⟩ | ⟨_, h, e⟩ | ⟨_, h, e⟩ | ⟨_, h, e⟩ | ⟨_, h, e⟩ |
      ⟨_, h, e⟩ | ⟨_, h, e⟩ | ⟨h, e⟩
    all_goals try
      (exfalso
       norm_num [LIMIT_BULK, LIMIT_VAL_MAX, LIMIT_REGULAR, LIMIT_EXPRESS,
         LIMIT_SUPER, LIMIT_WALK, LIMIT_PREM_1, LIMIT_PREM_2, LIMIT_PREM_3,
         LIMIT_PREM_5, LIMIT_PREM_10_BASE] at h
       linarith)
    rw [e]
    norm_num [COST_PREM_10_BASE, COST_PREM_10_ADD, LIMIT_PREM_10_BASE]
  refine ⟨?_, ?_, ?_, hprem, ?_⟩
  · rintro v (rfl | ⟨q, rfl, hq⟩)
    · norm_num [get_grading_fee, COST_BULK]
    · simp only [get_grading_fee, if_pos hq]
      norm_num [COST_BULK]
  · norm_num [get_grading_fee, COST_BULK, LIMIT_BULK]
  · norm_num [get_grading_fee, COST_BULK, COST_VAL_MAX, LIMIT_BULK,
      LIMIT_VAL_MAX]
  · rw [hprem 360000 (by norm_num)]
    norm_num

/-- Witness for C1 evaluated at concrete inputs. -/
theorem claim_C1_grading_fee_witness :
    get_grading_fee none = 19.99
    ∧ get_grading_fee (some (-5)) = 19.99
    ∧ get_grading_fee (some 360000)
        = 9999 + 399 * ((⌈((360000:ℚ) - 350000) / 10000⌉ : ℤ) : ℚ) := by
  refine ⟨claim_C1_grading_fee.1 none (Or.inl rfl),
    claim_C1_grading_fee.1 (some (-5)) (Or.inr ⟨-5, rfl, by norm_num⟩),
    claim_C1_grading_fee.2.2.2.1 360000 (by norm_num)⟩

/-- Numeral form of prem_lb for automation. -/
theorem prem_lb_num (q : ℚ) (hq : (350000:ℚ) < q) :
    (10398:ℚ) ≤ 9999 + 399 * ((⌈(q - 350000) / 10000⌉ : ℤ) : ℚ) := by
  have h := prem_lb q (by norm_num [LIMIT_PREM_10_BASE]; linarith)
  norm_num [COST_PREM_10_BASE, COST_PREM_10_ADD, LIMIT_PREM_10_BASE] at h
  linarith

set_option maxHeartbeats 4000000 in
/-- C10: the grading fee ladder is monotonically non-decreasing over the
whole rational domain, nonpositive declared values included. -/
theorem claim_C10_fee_monotone (v1 v2 : ℚ) (h : v1 ≤ v2) :
    get_grading_fee (some v1) ≤ get_grading_fee (some v2) := by
  rcases fee_spec v1 with ⟨ha1, e1⟩ | ⟨ha1, hb1, e1⟩ | ⟨ha1, hb1, e1⟩ |
    ⟨ha1, hb1, e1⟩ | ⟨ha1, hb1, e1⟩ | ⟨ha1, hb1, e1⟩ | ⟨ha1, hb1, e1⟩ |
    ⟨ha1, hb1, e1⟩ | ⟨ha1, hb1, e1⟩ | ⟨ha1, hb1, e1⟩ | ⟨ha1, hb1, e1⟩ |
    ⟨ha1, hb1, e1⟩ | ⟨ha1, e1⟩ <;>
  rcases fee_spec v2 with ⟨ha2, e2⟩ | ⟨ha2, hb2, e2⟩ | ⟨ha2, hb2, e2⟩ |
    ⟨ha2, hb2, e2⟩ | ⟨ha2, hb2, e2⟩ | ⟨ha2, hb2, e2⟩ | ⟨ha2, hb2, e2⟩ |
    ⟨ha2, hb2, e2⟩ | ⟨ha2, hb2, e2⟩ | ⟨ha2, hb2, e2⟩ | ⟨ha2, hb2, e2⟩ |
    ⟨ha2, hb2, e2⟩ | ⟨ha2, e2⟩ <;>
  rw [e1, e2] <;>
  simp only [COST_BULK, COST_VAL_MAX, COST_REGULAR, COST_EXPRESS, COST_SUPER,
    COST_WALK, COST_PREM_1, COST_PREM_2, COST_PREM_3, COST_PREM_5,
    COST_PREM_10_BASE, COST_PREM_10_ADD, LIMIT_BULK, LIMIT_VAL_MAX,
    LIMIT_REGULAR, LIMIT_EXPRESS, LIMIT_SUPER, LIMIT_WALK, LIMIT_PREM_1,
    LIMIT_PREM_2, LIMIT_PREM_3, LIMIT_PREM_5, LIMIT_PREM_10_BASE] at * <;>
  first
    | linarith
    | (have hp := prem_lb_num v2 (by linarith)
       linarith)
    | (have hdiv : (v1 - 350000) / 10000 ≤ (v2 - 350000) / 10000 := by
         linarith
       have hcc : ((⌈(v1 - 350000) / 10000⌉ : ℤ) : ℚ)
          ≤ ((⌈(v2 - 350000) / 10000⌉ : ℤ) : ℚ) := by
         exact_mod_cast Int.ceil_mono hdiv
       linarith)

/-- Witness for C10 at a concrete pair of inputs straddling a boundary. -/
theorem claim_C10_fee_monotone_witness :
    get_grading_fee (some 499) ≤ get_grading_fee (some 500) :=
  claim_C10_fee_monotone 499 500 (by norm_num)

/-- Maxima of two ladder fees also have at most two decimals. -/
theorem round2_max_fee (u v : Option ℚ) :
    round2 (max (get_grading_fee u) (get_grading_fee v))
      = max (get_grading_fee u) (get_grading_fee v) := by
  rcases max_choice (get_grading_fee u) (get_grading_fee v) with h | h <;>
    rw [h] <;> exact round2_fee _

/-- C2: for positive raw and graded prices the assessment computes the
entry fee from the raw price, the scenario fees as the maximum of the
entry fee and the fee at the graded value, the profits as the graded price
minus fee, shipping and raw cost (rounded to two decimals), and the PSA 10
ROI as the rounded ratio of rounded profit to total cost (the total cost
is provably nonzero here, so the division guard never yields null). -/
theorem claim_C2_assessment (r g9 g10 : ℚ)
    (hr : 0 < r) (h9 : 0 < g9) (h10 : 0 < g10) :
    (calculate_grading_potential (some r) (some g9) (some g10)).grading_fee_entry
      = some (get_grading_fee (some r))
    ∧ (calculate_grading_potential (some r) (some g9) (some g10)).grading_fee_psa9
      = some (max (get_grading_fee (some r)) (get_grading_fee (some g9)))
    ∧ (calculate_grading_potential (some r) (some g9) (some g10)).profit_at_psa9
      = some (round2 (g9 - (max (get_grading_fee (some r)) (get_grading_fee (some g9))
          + COST_SHIPPING + r)))
    ∧ (calculate_grading_potential (some r) (some g9) (some g10)).grading_fee_psa10
      = some (max (get_grading_fee (some r)) (get_grading_fee (some g10)))
    ∧ (calculate_grading_potential (some r) (some g9) (some g10)).profit_at_psa10
      = some (round2 (g10 - (max (get_grading_fee (some r)) (get_grading_fee (some g10))
          + COST_SHIPPING + r)))
    ∧ max (get_grading_fee (some r)) (get_grading_fee (some g10)) + COST_SHIPPING + r ≠ 0
    ∧ (calculate_grading_potential (some r) (some g9) (some g10)).roi_psa10
      = some (round2 (round2 (g10 - (max (get_grading_fee (some r)) (get_grading_fee (some g10))
          + COST_SHIPPING + r))
          / (max (get_grading_fee (some r)) (get_grading_fee (some g10)) + COST_SHIPPING + r)
          * 100)) := by
  have hship : (0:ℚ) < COST_SHIPPING := by norm_num [COST_SHIPPING]
  have hfer := fee_pos (some r)
  have hfe9 := fee_pos (some g9)
  have hfe10 := fee_pos (some g10)
  have hmax9 : 0 < max (get_grading_fee (some r)) (get_grading_fee (some g9)) :=
    lt_max_of_lt_left hfer
  have hmax10 : 0 < max (get_grading_fee (some r)) (get_grading_fee (some g10)) :=
    lt_max_of_lt_left hfer
  have ht10 : 0 < max (get_grading_fee (some r)) (get_grading_fee (some g10))
      + COST_SHIPPING + r := by linarith
  have hcb : get_grading_fee (some r) + COST_SHIPPING ≠ 0 := by positivity
  refine ⟨?_, ?_, ?_, ?_, ?_, ht10.ne', ?_⟩ <;>
    simp [calculate_grading_potential, grade_scenario, roi_scenario,
      roundIfTruthy, truthy, round2_fee, round2_max_fee, not_le.mpr hr,
      h9, h10, h9.ne', h10.ne', ht10, hfer.ne', hmax9.ne', hmax10.ne', hcb]

/-- Witness for C2: the worked example of the specification,
assess(raw = 50, grade9 = 200, grade10 = 500). -/
theorem claim_C2_assessment_witness :
    (calculate_grading_potential (some 50) (some 200) (some 500)).grading_fee_entry
      = some 19.99
    ∧ (calculate_grading_potential (some 50) (some 200) (some 500)).grading_fee_psa9
      = some 19.99
    ∧ (calculate_grading_potential (some 50) (some 200) (some 500)).profit_at_psa9
      = some 120.02
    ∧ (calculate_grading_potential (some 50) (some 200) (some 500)).grading_fee_psa10
      = some 59.99
    ∧ (calculate_grading_potential (some 50) (some 200) (some 500)).profit_at_psa10
      = some 380.02
    ∧ (calculate_grading_potential (some 50) (some 200) (some 500)).grading_safety_tier
      = some SafetyTier.SAFE_BET := by
  obtain ⟨e1, e2, e3, e4, e5, _, _⟩ :=
    claim_C2_assessment 50 200 500 (by norm_num) (by norm_num) (by norm_num)
  have f50 : get_grading_fee (some 50) = 19.99 := by
    norm_num [get_grading_fee, COST_BULK, LIMIT_BULK]
  have f200 : get_grading_fee (some 200) = 19.99 := by
    norm_num [get_grading_fee, COST_BULK, LIMIT_BULK]
  have f500 : get_grading_fee (some 500) = 59.99 := by
    norm_num [get_grading_fee, COST_BULK, COST_VAL_MAX, LIMIT_BULK, LIMIT_VAL_MAX]
  refine ⟨?_, ?_, ?_, ?_, ?_, ?_⟩
  · rw [e1, f50]
  · rw [e2, f50, f200]
    norm_num
  · rw [e3, f50, f200, COST_SHIPPING]
    norm_num
    exact round2_eq_self_of_cents _ 12002 (by norm_num)
  · rw [e4, f50, f500]
    norm_num
  · rw [e5, f50, f500, COST_SHIPPING]
    norm_num
    exact round2_eq_self_of_cents _ 38002 (by norm_num)
  · simp [calculate_grading_potential, grade_scenario, roi_scenario,
      roundIfTruthy, truthy, optGeBool, optGtBool, f50, f200, f500,
      COST_SHIPPING]
    norm_num [round2, roundHalfEven]

/-- The three early-return guards of calculate_grading_potential all yield
the default result. -/
theorem calc_default_of (pr p9 p10 : Option ℚ)
    (h : pr = none ∨ (∃ r, pr = some r ∧ r ≤ 0)
      ∨ (truthy p9 = false ∧ truthy p10 = false)) :
    calculate_grading_potential pr p9 p10 = default_result := by
  rcases h with rfl | ⟨r, rfl, hr⟩ | hg
  · rfl
  · simp [calculate_grading_potential, if_pos hr]
  · cases pr with
    | none => rfl
    | some r =>
      by_cases hr : r ≤ 0
      · simp [calculate_grading_potential, if_pos hr]
      · simp [calculate_grading_potential, if_neg hr, if_pos hg]

/-- C4: when the raw price is absent or nonpositive, or both graded prices
are absent, the assessment is the all-null default (upcharge false); no
exception path exists in the embedding. -/
theorem claim_C4_insufficient_data (pr p9 p10 : Option ℚ)
    (h : pr = none ∨ (∃ r, pr = some r ∧ r ≤ 0) ∨ (p9 = none ∧ p10 = none)) :
    calculate_grading_potential pr p9 p10 = default_result := by
  rcases h with h | h | ⟨rfl, rfl⟩
  · exact calc_default_of pr p9 p10 (Or.inl h)
  · exact calc_default_of pr p9 p10 (Or.inr (Or.inl h))
  · exact calc_default_of pr none none (Or.inr (Or.inr ⟨rfl, rfl⟩))

/-- Witness for C4 at concrete inputs for each disjunct. -/
theorem claim_C4_insufficient_data_witness :
    calculate_grading_potential none (some 1) (some 2) = default_result
    ∧ calculate_grading_potential (some 0) (some 1) (some 2) = default_result
    ∧ calculate_grading_potential (some 10) none none = default_result :=
  ⟨claim_C4_insufficient_data none (some 1) (some 2) (Or.inl rfl),
    claim_C4_insufficient_data (some 0) (some 1) (some 2)
      (Or.inr (Or.inl ⟨0, rfl, le_refl 0⟩)),
    claim_C4_insufficient_data (some 10) none none
      (Or.inr (Or.inr ⟨rfl, rfl⟩))⟩

/-- Reduction of calculate_grading_potential on the main path (no guard
taken) to an explicit record over the two scenario results. -/
theorem calc_main_eq (r : ℚ) (p9 p10 : Option ℚ) (hr : ¬ r ≤ 0)
    (hg : ¬ (truthy p9 = false ∧ truthy p10 = false)) :
    calculate_grading_potential (some r) p9 p10 =
      ⟨roundIfTruthy (some (get_grading_fee (some r) + COST_SHIPPING)),
       roundIfTruthy (some (get_grading_fee (some r))),
       roundIfTruthy ((grade_scenario (get_grading_fee (some r)) r p9).map Prod.fst),
       roundIfTruthy ((grade_scenario (get_grading_fee (some r)) r p10).map Prod.fst),
       (grade_scenario (get_grading_fee (some r)) r p9).map Prod.snd,
       (grade_scenario (get_grading_fee (some r)) r p10).map Prod.snd,
       roi_scenario r (grade_scenario (get_grading_fee (some r)) r p10),
       ((match grade_scenario (get_grading_fee (some r)) r p9 with
         | some (f9, _) => decide (f9 ≠ 0) && decide (get_grading_fee (some r) < f9)
         | none => false)
       || (match grade_scenario (get_grading_fee (some r)) r p10 with
         | some (f10, _) => decide (f10 ≠ 0) && decide (get_grading_fee (some r) < f10)
         | none => false)),
       (match grade_scenario (get_grading_fee (some r)) r p9 with
        | some (_, profit9) =>
          some (if decide (0 ≤ profit9)
                && optGeBool ((grade_scenario (get_grading_fee (some r)) r p10).map Prod.snd) 20
              then SafetyTier.SAFE_BET
            else if optGtBool (roi_scenario r (grade_scenario (get_grading_fee (some r)) r p10)) 125
                && optGtBool ((grade_scenario (get_grading_fee (some r)) r p10).map Prod.snd) 0
              then SafetyTier.GAMBLE
            else SafetyTier.DO_NOT_GRADE)
        | none =>
          match grade_scenario (get_grading_fee (some r)) r p10 with
          | some (_, profit10) =>
            some (if optGtBool (roi_scenario r (grade_scenario (get_grading_fee (some r)) r p10)) 125
                  && decide (0 < profit10)
                then SafetyTier.GAMBLE
              else SafetyTier.DO_NOT_GRADE)
          | none => none)⟩ := by
  simp only [calculate_grading_potential, if_neg hr, if_neg hg]

/-- C3: the safety-tier cascade of the assessment, stated over the output
fields.  When profit_at_psa9 is present the tier is SAFE_BET exactly when
that profit is nonnegative and profit_at_psa10 is present and at least 20,
else GAMBLE exactly when roi_psa10 is present and above 125 and
profit_at_psa10 is present and positive, else DO_NOT_GRADE; when only
profit_at_psa10 is present the GAMBLE/DO_NOT_GRADE test applies; when
neither profit is present the tier is null. -/
theorem claim_C3_safety_tier (pr p9 p10 : Option ℚ) :
    (∀ q9, (calculate_grading_potential pr p9 p10).profit_at_psa9 = some q9 →
      (calculate_grading_potential pr p9 p10).grading_safety_tier
        = some (if decide (0 ≤ q9)
              && optGeBool ((calculate_grading_potential pr p9 p10).profit_at_psa10) 20
            then SafetyTier.SAFE_BET
          else if optGtBool ((calculate_grading_potential pr p9 p10).roi_psa10) 125
              && optGtBool ((calculate_grading_potential pr p9 p10).profit_at_psa10) 0
            then SafetyTier.GAMBLE
          else SafetyTier.DO_NOT_GRADE))
    ∧ ((calculate_grading_potential pr p9 p10).profit_at_psa9 = none →
        ∀ q10, (calculate_grading_potential pr p9 p10).profit_at_psa10 = some q10 →
        (calculate_grading_potential pr p9 p10).grading_safety_tier
          = some (if optGtBool ((calculate_grading_potential pr p9 p10).roi_psa10) 125
                && decide (0 < q10)
              then SafetyTier.GAMBLE
            else SafetyTier.DO_NOT_GRADE))
    ∧ ((calculate_grading_potential pr p9 p10).profit_at_psa9 = none →
        (calculate_grading_potential pr p9 p10).profit_at_psa10 = none →
        (calculate_grading_potential pr p9 p10).grading_safety_tier = none) := by
  cases pr with
  | none =>
    rw [calc_default_of none p9 p10 (Or.inl rfl)]
    refine ⟨?_, ?_, ?_⟩ <;> intros <;> simp_all [default_result]
  | some r =>
    by_cases hr : r ≤ 0
    · rw [calc_default_of (some r) p9 p10 (Or.inr (Or.inl ⟨r, rfl, hr⟩))]
      refine ⟨?_, ?_, ?_⟩ <;> intros <;> simp_all [default_result]
    · by_cases hg : truthy p9 = false ∧ truthy p10 = false
      · rw [calc_default_of (some r) p9 p10 (Or.inr (Or.inr hg))]
        refine ⟨?_, ?_, ?_⟩ <;> intros <;> simp_all [default_result]
      · rw [calc_main_eq r p9 p10 hr hg]
        generalize grade_scenario (get_grading_fee (some r)) r p10 = s10
        generalize grade_scenario (get_grading_fee (some r)) r p9 = s9
        rcases s9 with _ | ⟨f9, pf9⟩ <;> rcases s10 with _ | ⟨f10, pf10⟩ <;>
          refine ⟨?_, ?_, ?_⟩ <;> intros <;> simp_all

/-- Witness for C3 at the worked example: profit_at_psa9 is present there
and the cascade selects SAFE_BET. -/
theorem claim_C3_safety_tier_witness :
    (calculate_grading_potential (some 50) (some 200) (some 500)).grading_safety_tier
      = some (if decide ((0:ℚ) ≤ 120.02)
            && optGeBool ((calculate_grading_potential (some 50) (some 200) (some 500)).profit_at_psa10) 20
          then SafetyTier.SAFE_BET
        else if optGtBool ((calculate_grading_potential (some 50) (some 200) (some 500)).roi_psa10) 125
            && optGtBool ((calculate_grading_potential (some 50) (some 200) (some 500)).profit_at_psa10) 0
          then SafetyTier.GAMBLE
        else SafetyTier.DO_NOT_GRADE) := by
  apply (claim_C3_safety_tier (some 50) (some 200) (some 500)).1 120.02
  have f50 : get_grading_fee (some 50) = 19.99 := by
    norm_num [get_grading_fee, COST_BULK, LIMIT_BULK]
  have f200 : get_grading_fee (some 200) = 19.99 := by
    norm_num [get_grading_fee, COST_BULK, LIMIT_BULK]
  simp [calculate_grading_potential, grade_scenario, roi_scenario, truthy,
    f50, f200, COST_SHIPPING]
  norm_num [round2, roundHalfEven]

/-! ## Identity resolver (sync_card_variants_v2.py) -/

/-- Decide whether the first list is an initial segment of the second. -/
def isPre : List Char → List Char → Bool
  | [], _ => true
  | _ :: _, [] => false
  | p :: ps, c :: cs => p == c && isPre ps cs

/-- Decide whether the first list occurs as a contiguous substring of the
second, the model of the Python `in` test on strings. -/
def hasSub (pat : List Char) : List Char → Bool
  | [] => pat.isEmpty
  | c :: cs => isPre pat (c :: cs) || hasSub pat cs

/-- Lower-cased character list of a string; models Python str.lower on the
ASCII product names (Char.toLower lowercases exactly basic latin). -/
def lowerName (s : String) : List Char := s.data.map Char.toLower

/-- One marketplace product as consumed by the variant classifier:
productId, name and imageUrl fields of the TCGPlayer product dict. -/
structure TcgProduct where
  productId : ℕ
  name : String
  imageUrl : String
deriving DecidableEq, Repr

/-- Embedding of VariantCard.classify_product_variant
(sync_card_variants_v2.py, lines 80-92): case-insensitive substring match
on the product name with first-match-wins priority. -/
def classify_product_variant (product : TcgProduct) : String :=
  let name := lowerName product.name
  if hasSub "master ball".data name then "master_ball"
  else if hasSub "poke ball".data name || hasSub "pokeball".data name then
    "poke_ball"
  else if hasSub "rainbow".data name || hasSub "secret".data name
      || hasSub "gold".data name || hasSub "alternate art".data name then
    "special"
  else "base"

/-- One classified product: the dict built in classify_variants
(lines 62-68). -/
structure ClassifiedProduct where
  product : TcgProduct
  variant_type : String
  is_base : Bool
deriving DecidableEq, Repr

/-- Embedding of the classification loop of VariantCard.classify_variants
(lines 60-68). -/
def classify_variants (products : List TcgProduct) : List ClassifiedProduct :=
  products.map fun p =>
    ⟨p, classify_product_variant p, decide (classify_product_variant p = "base")⟩

/-- Embedding of the base-product selection of VariantCard.classify_variants
(lines 70-76): the first base-classified product, else the first product.
The Python indexes classified_products[0], which raises on an empty group;
the none result models that partiality. -/
def choose_base_product (classified : List ClassifiedProduct) : Option TcgProduct :=
  match classified.filter (fun c => c.is_base) with
  | c :: _ => some c.product
  | [] => (classified.head?).map (fun c => c.product)

/-- One entry of the persisted tcgplayer_products array (lines 110-116). -/
structure VariantEntry where
  product_id : ℕ
  variant_types : List String
  name : String
  image_url : String
  is_primary : Bool
deriving DecidableEq, Repr

/-- Embedding of VariantCard.build_tcgplayer_products_array
(lines 94-118); base_product is the product chosen by classify_variants. -/
def build_tcgplayer_products_array
    (base_product : TcgProduct) (classified : List ClassifiedProduct) :
    List VariantEntry :=
  classified.map fun c =>
    ⟨c.product.productId,
      (if c.variant_type = "poke_ball" ∨ c.variant_type = "master_ball"
        then [c.variant_type] else ["normal", "reverse", "holo"]),
      c.product.name,
      c.product.imageUrl,
      c.product.productId == base_product.productId⟩

/-- Embedding of EnhancedVariantSync.check_product_exists_in_tcg_products
(lines 283-303): membership of a product id in the persisted entry list
(the store read is external; the entries are passed directly). -/
def check_product_exists_in_tcg_products
    (entries : List VariantEntry) (product_id : ℕ) : Bool :=
  entries.any fun p => p.product_id == product_id

/-- The merging rule of sync_multi_variant_card and
update_card_variant_data (lines 796-807 and 871-872): entries whose
product id already occurs in the persisted list are filtered out before
the remaining new entries are appended. -/
def merge_entries (current newEntries : List VariantEntry) : List VariantEntry :=
  current ++ newEntries.filter
    (fun e => !(check_product_exists_in_tcg_products current e.product_id))

/-! ### Candidate key generation (try_multiple_card_ids, lines 305-371) -/

/-- The part of a card number before the first slash (lines 307-311);
Python card_number.split sliced at index 0. -/
def beforeSlash (s : List Char) : List Char := s.takeWhile (fun c => c != '/')

/-- Python number_part.lstrip of zeros, with the `or` fallback keeping one
zero for all-zero input (line 320). -/
def lstripZeros (s : List Char) : List Char :=
  match s.dropWhile (fun c => c == '0') with
  | [] => ['0']
  | r => r

/-- Python str.isdigit on the ASCII number tokens: nonempty and all
characters in 0-9. -/
def pyIsDigit (s : List Char) : Bool := !s.isEmpty && s.all Char.isDigit

/-- Python str.zfill for the nonnegative digit tokens used here: pad with
leading zeros to the requested width. -/
def zfill (w : ℕ) (s : List Char) : List Char :=
  List.replicate (w - s.length) '0' ++ s

/-- ASCII letter test, the character class of the regex used on line 332. -/
def isAsciiLetter (c : Char) : Bool :=
  (('A' ≤ c) && (c ≤ 'Z')) || (('a' ≤ c) && (c ≤ 'z'))

/-- Model of re.match on the anchored pattern letters-then-digits of
line 332: the maximal letter head followed by an all-digit nonempty tail
(backtracking cannot produce any other split for this pattern). -/
def letterMatch (s : List Char) : Option (List Char × List Char) :=
  let letters := s.takeWhile isAsciiLetter
  let rest := s.dropWhile isAsciiLetter
  if !letters.isEmpty && !rest.isEmpty && rest.all Char.isDigit then
    some (letters, rest)
  else none

/-- The last n characters of a token, Python negative-index slicing. -/
def lastN (n : ℕ) (s : List Char) : List Char := s.drop (s.length - n)

/-- Embedding of the candidate id generation of
EnhancedVariantSync.try_multiple_card_ids (lines 305-356): the ordered
list possible_ids before the probe loop. -/
def possible_ids (set_id card_number : String) : List String :=
  let number_part := beforeSlash card_number.data
  let ids1 := [set_id ++ "-" ++ String.mk number_part]
  let trimmed := lstripZeros number_part
  let ids2 := ids1 ++
    (if trimmed ≠ number_part then [set_id ++ "-" ++ String.mk trimmed] else [])
  let ids3 := ids2 ++
    (if pyIsDigit number_part && decide (number_part.length < 3) then
      (if zfill 3 number_part ≠ number_part
        then [set_id ++ "-" ++ String.mk (zfill 3 number_part)] else [])
    else [])
  let ids4 := ids3 ++
    (match letterMatch number_part with
    | some (pre, suf) =>
      (if suf.length > 2 then
        (if lastN 2 (zfill 2 suf) ≠ suf ∧ lastN 2 (zfill 2 suf) ≠ ['0', '0']
          then [set_id ++ "-" ++ String.mk (pre ++ lastN 2 (zfill 2 suf))]
          else [])
      else [])
      ++ (if lstripZeros suf ≠ suf
          then [set_id ++ "-" ++ String.mk (pre ++ lstripZeros suf)] else [])
      ++ (if suf.length < 3 then
          (if zfill 3 suf ≠ suf
            then [set_id ++ "-" ++ String.mk (pre ++ zfill 3 suf)] else [])
        else [])
    | none => [])
  ids4 ++ [set_id ++ "-TCG" ++ String.mk number_part]

/-- Embedding of the probe loop of try_multiple_card_ids (lines 358-371):
the catalog store is abstracted as a membership predicate on card ids and
the first existing candidate is returned. -/
def try_multiple_card_ids (store : String → Bool)
    (set_id card_number : String) : Option String :=
  (possible_ids set_id card_number).find? store

/-- The card id generated by
EnhancedVariantSync.create_single_card_from_product (line 479) for a
synthetic card created directly from a marketplace product. -/
def create_card_id (set_id : String) (product_id : ℕ) : String :=
  set_id ++ "-TCG" ++ toString product_id

/-! ## Claims about the identity resolver -/

/-- C5: classifyPattern is deterministic (it is a function) and
case-insensitive, follows the first-match-wins priority of the source
(master ball, then poke ball, then the special bucket, else base), and
classifies the four example names as poke_ball, master_ball, special and
base respectively. -/
theorem claim_C5_classify_pattern :
    (∀ p q : TcgProduct, lowerName p.name = lowerName q.name →
      classify_product_variant p = classify_product_variant q)
    ∧ (∀ p : TcgProduct,
        (hasSub "master ball".data (lowerName p.name) = true →
          classify_product_variant p = "master_ball")
        ∧ (hasSub "master ball".data (lowerName p.name) = false →
            (hasSub "poke ball".data (lowerName p.name)
              || hasSub "pokeball".data (lowerName p.name)) = true →
            classify_product_variant p = "poke_ball")
        ∧ (hasSub "master ball".data (lowerName p.name) = false →
            (hasSub "poke ball".data (lowerName p.name)
              || hasSub "pokeball".data (lowerName p.name)) = false →
            (hasSub "rainbow".data (lowerName p.name)
              || hasSub "secret".data (lowerName p.name)
              || hasSub "gold".data (lowerName p.name)
              || hasSub "alternate art".data (lowerName p.name)) = true →
            classify_product_variant p = "special")
        ∧ (hasSub "master ball".data (lowerName p.name) = false →
            (hasSub "poke ball".data (lowerName p.name)
              || hasSub "pokeball".data (lowerName p.name)) = false →
            (hasSub "rainbow".data (lowerName p.name)
              || hasSub "secret".data (lowerName p.name)
              || hasSub "gold".data (lowerName p.name)
              || hasSub "alternate art".data (lowerName p.name)) = false →
            classify_product_variant p = "base"))
    ∧ classify_product_variant ⟨0, "Charizard Poke Ball Pattern", ""⟩ = "poke_ball"
    ∧ classify_product_variant ⟨0, "Pikachu Master Ball", ""⟩ = "master_ball"
    ∧ classify_product_variant ⟨0, "Pikachu VMAX Rainbow Rare", ""⟩ = "special"
    ∧ classify_product_variant ⟨0, "Pikachu", ""⟩ = "base" := by
  refine ⟨?_, ?_, by decide, by decide, by decide, by decide⟩
  · intro p q h
    simp only [classify_product_variant]
    rw [h]
  · intro p
    refine ⟨?_, ?_, ?_, ?_⟩
    · intro h1
      simp only [classify_product_variant]
      rw [if_pos h1]
    · intro h1 h2
      simp only [classify_product_variant]
      rw [if_neg (by simp [h1]), if_pos h2]
    · intro h1 h2 h3
      simp only [classify_product_variant]
      rw [if_neg (by simp [h1]), if_neg (by simp [h2]), if_pos h3]
    · intro h1 h2 h3
      simp only [classify_product_variant]
      rw [if_neg (by simp [h1]), if_neg (by simp [h2]), if_neg (by simp [h3])]

/-- Witness for C5 on an upper-case name, exercising the case-insensitive
master-ball branch. -/
theorem claim_C5_classify_pattern_witness :
    classify_product_variant ⟨7, "SQUIRTLE MASTER BALL PATTERN", ""⟩
      = "master_ball" :=
  (claim_C5_classify_pattern.2.1 ⟨7, "SQUIRTLE MASTER BALL PATTERN", ""⟩).1
    (by decide)

/-- The head of the base-filtered classification is the first
base-classified product. -/
theorem filter_base_head (ps : List TcgProduct) :
    (((classify_variants ps).filter (fun c => c.is_base)).head?).map
        (fun c => c.product)
      = ps.find? (fun p => decide (classify_product_variant p = "base")) := by
  induction ps with
  | nil => rfl
  | cons p ps ih =>
    by_cases hb : classify_product_variant p = "base"
    · simp [classify_variants, List.filter_cons, List.find?_cons, hb]
    · simpa [classify_variants, List.filter_cons, List.find?_cons, hb] using ih

/-- choose_base_product on a classified group is the first base product,
with the first product of the group as fallback. -/
theorem choose_base_eq (ps : List TcgProduct) :
    choose_base_product (classify_variants ps)
      = Option.orElse
          (ps.find? fun p => decide (classify_product_variant p = "base"))
          (fun _ => ps.head?) := by
  rw [← filter_base_head ps]
  simp only [choose_base_product]
  cases hf : (classify_variants ps).filter (fun c => c.is_base) with
  | nil =>
    simp only [classify_variants, List.head?_map, Option.map_map,
      List.head?_nil, Option.map_none', Option.orElse]
    rcases ps.head? with _ | p <;> rfl
  | cons c rest =>
    simp [Option.orElse]

/-- C6: for a non-empty variant group with pairwise-distinct product ids,
the chosen primary is the first base-classified product (the first product
of the group when none is base), and the built entry list has exactly one
entry with is_primary true. -/
theorem claim_C6_unique_primary (ps : List TcgProduct) (hne : ps ≠ [])
    (hnd : (ps.map TcgProduct.productId).Nodup) :
    ∃ b, choose_base_product (classify_variants ps) = some b
      ∧ Option.orElse
          (ps.find? fun p => decide (classify_product_variant p = "base"))
          (fun _ => ps.head?) = some b
      ∧ (build_tcgplayer_products_array b (classify_variants ps)).countP
          (fun e => e.is_primary) = 1 := by
  have hcount : ∀ b : TcgProduct, b ∈ ps →
      (build_tcgplayer_products_array b (classify_variants ps)).countP
        (fun e => e.is_primary) = 1 := by
    intro b hb
    have h1 : (build_tcgplayer_products_array b (classify_variants ps)).countP
        (fun e => e.is_primary)
        = ps.countP (fun p => p.productId == b.productId) := by
      simp only [build_tcgplayer_products_array, classify_variants,
        List.countP_map]
      rfl
    have h2 : ps.countP (fun p => p.productId == b.productId)
        = (ps.map TcgProduct.productId).count b.productId := by
      rw [List.count_eq_countP, List.countP_map]
      rfl
    rw [h1, h2]
    exact List.count_eq_one_of_mem hnd
      (List.mem_map_of_mem TcgProduct.productId hb)
  rcases hf : ps.find? (fun p => decide (classify_product_variant p = "base"))
    with _ | p
  · cases ps with
    | nil => exact absurd rfl hne
    | cons q qs =>
      refine ⟨q, ?_, ?_, hcount q (List.mem_cons_self q qs)⟩
      · rw [choose_base_eq, hf]
        rfl
      · rfl
  · have hp : p ∈ ps := List.mem_of_find?_eq_some hf
    refine ⟨p, ?_, ?_, hcount p hp⟩
    · rw [choose_base_eq, hf]
      rfl
    · rfl

/-- Witness for C6 on the three-product scenario of the specification:
a poke-ball variant, a master-ball variant and a plain base product. -/
theorem claim_C6_unique_primary_witness :
    ∃ b, choose_base_product (classify_variants
        [⟨1, "X (Poke Ball Pattern)", ""⟩, ⟨2, "X (Master Ball Pattern)", ""⟩,
          ⟨3, "X", ""⟩]) = some b
      ∧ Option.orElse
          ([(⟨1, "X (Poke Ball Pattern)", ""⟩ : TcgProduct),
            ⟨2, "X (Master Ball Pattern)", ""⟩, ⟨3, "X", ""⟩].find?
            fun p => decide (classify_product_variant p = "base"))
          (fun _ => [(⟨1, "X (Poke Ball Pattern)", ""⟩ : TcgProduct),
            ⟨2, "X (Master Ball Pattern)", ""⟩, ⟨3, "X", ""⟩].head?) = some b
      ∧ (build_tcgplayer_products_array b (classify_variants
          [⟨1, "X (Poke Ball Pattern)", ""⟩, ⟨2, "X (Master Ball Pattern)", ""⟩,
            ⟨3, "X", ""⟩])).countP (fun e => e.is_primary) = 1 :=
  claim_C6_unique_primary
    [⟨1, "X (Poke Ball Pattern)", ""⟩, ⟨2, "X (Master Ball Pattern)", ""⟩,
      ⟨3, "X", ""⟩] (by decide) (by decide)

/-- A list whose predicate is satisfied by exactly one value finds exactly
that value. -/
theorem find?_eq_some_of_unique {α : Type} (p : α → Bool) (a : α)
    (l : List α) (hl : a ∈ l) (hp : ∀ b, p b = true ↔ b = a) :
    l.find? p = some a := by
  induction l with
  | nil => cases hl
  | cons x xs ih =>
    by_cases hx : p x = true
    · rw [List.find?_cons_of_pos _ hx, (hp x).mp hx]
    · rw [List.find?_cons_of_neg _ hx]
      rcases List.mem_cons.mp hl with rfl | h
      · exact absurd ((hp a).mpr rfl) hx
      · exact ih h

/-- C7 counterexample: the TCG-prefixed fallback key IS probed during
plain lookup.  With a catalog store containing exactly the synthetic id
sv10-TCG023, try_multiple_card_ids returns that fallback key. -/
theorem claim_C7_counterexample :
    try_multiple_card_ids (fun k => k == "sv10-TCG023") "sv10" "023"
      = some "sv10-TCG023" := by decide

/-- C7 amended: the last candidate key generated by try_multiple_card_ids
is the set_id-TCG-number fallback key, the create-flow generates synthetic
ids of the same set_id-TCG-product_id shape, and the lookup probes the
fallback key last: it is returned when it is the only candidate present in
the catalog store. -/
theorem claim_C7_tcg_fallback_amended :
    (∀ s n : String, (possible_ids s n).getLast?
        = some (s ++ "-TCG" ++ String.mk (beforeSlash n.data)))
    ∧ (∀ (s : String) (pid : ℕ),
        create_card_id s pid = s ++ "-TCG" ++ toString pid)
    ∧ (∀ (s n : String) (store : String → Bool),
        (∀ k, store k = true ↔ k = s ++ "-TCG" ++ String.mk (beforeSlash n.data)) →
        try_multiple_card_ids store s n
          = some (s ++ "-TCG" ++ String.mk (beforeSlash n.data))) := by
  refine ⟨?_, fun s pid => rfl, ?_⟩
  · intro s n
    simp only [possible_ids]
    exact List.getLast?_concat _
  · intro s n store hstore
    apply find?_eq_some_of_unique _ _ _ _ hstore
    simp only [possible_ids]
    exact List.mem_append_right _ (List.mem_singleton_self _)

/-- Witness for C7 amended with a concrete one-key store. -/
theorem claim_C7_tcg_fallback_amended_witness :
    try_multiple_card_ids (fun k => k == "bw-TCGBW004") "bw" "BW004"
      = some "bw-TCGBW004" := by
  have he : "bw" ++ "-TCG" ++ String.mk (beforeSlash "BW004".data)
      = "bw-TCGBW004" := by decide
  have h := claim_C7_tcg_fallback_amended.2.2 "bw" "BW004"
    (fun k => k == "bw-TCGBW004") (by rw [he]; intro k; simp)
  rw [he] at h
  exact h

/-- C8 counterexample: the candidate list is not duplicate-free in
general.  For number BW044 the two-digit rule and the zero-stripped rule
both generate bw-BW44 (the source compares each variant only against the
original suffix, not against previously generated forms). -/
theorem claim_C8_counterexample : ¬ (possible_ids "bw" "BW044").Nodup := by
  decide

/-- C8 amended: the candidate list is ordered with the as-given form
first, and for the two inputs of the specification it contains exactly the
documented keys with no duplicates (general duplicate-freeness fails, see
the counterexample). -/
theorem claim_C8_candidate_keys_amended :
    (∀ s n : String, (possible_ids s n).head?
        = some (s ++ "-" ++ String.mk (beforeSlash n.data)))
    ∧ possible_ids "sv10" "023" = ["sv10-023", "sv10-23", "sv10-TCG023"]
    ∧ (possible_ids "sv10" "023").Nodup
    ∧ possible_ids "bw" "BW004"
        = ["bw-BW004", "bw-BW04", "bw-BW4", "bw-TCGBW004"]
    ∧ (possible_ids "bw" "BW004").Nodup := by
  refine ⟨?_, by decide, by decide, by decide, by decide⟩
  intro s n
  simp [possible_ids]

/-- C9: re-applying the entry builder to the same variant group and
merging by product-id membership is the identity on the persisted entry
list: every new entry has a product id already present, so nothing is
appended and the record is unchanged. -/
theorem claim_C9_merge_idempotent (ps : List TcgProduct) (b : TcgProduct) :
    merge_entries (build_tcgplayer_products_array b (classify_variants ps))
      (build_tcgplayer_products_array b (classify_variants ps))
      = build_tcgplayer_products_array b (classify_variants ps) := by
  have key : ∀ l : List VariantEntry, merge_entries l l = l := by
    intro l
    have hfilter : l.filter
        (fun e => !(check_product_exists_in_tcg_products l e.product_id)) = [] := by
      rw [List.filter_eq_nil_iff]
      intro e he
      simp only [check_product_exists_in_tcg_products, Bool.not_eq_true',
        Bool.not_eq_false]
      exact List.any_eq_true.mpr ⟨e, he, beq_self_eq_true _⟩
    rw [merge_entries, hfilter, List.append_nil]
  exact key _

end SlabAdvisor
